import Mathlib

/-!
Formal model of the bucohub backend (src/server.js and the pool-based
variant in src/unnamed/part_000): the registrations data model, the
request handlers for registration, login, listing, deletion and CSV
export, and theorems about their behaviour.

Conventions of the shallow embedding:
* A MySQL table is a `List` of row structures; the UNIQUE email
  constraint of `registrations` appears as the `ER_DUP_ENTRY` branch of
  the insert (insert fails exactly when some persisted row already has
  the email).
* JavaScript values that may be `undefined`/`null` are `Option`;
  JavaScript truthiness of strings (where `""` is falsy) is `jsTruthyStr`.
* `bcrypt.hash` and `bcrypt.compare` are opaque, so handlers take the
  hashing / verification function as an explicit parameter.
* Asynchronous resolution is immaterial to the claims (each handler is a
  straight-line chain of awaited steps), so a handler is a pure function
  from the request and the database state to a response and the new
  state, together with flags recording the file-system side effects.
-/

namespace Bucohub

/-- JavaScript truthiness of a nullable string: `null`/`undefined` and
`""` are falsy, every other string is truthy. -/
def jsTruthyStr : Option String → Bool
  | none => false
  | some s => !(s == "")

/-- A nullable string field that is missing or empty (JS `!field`). -/
def isBlank : Option String → Bool
  | none => true
  | some s => s == ""

/-- A value of the JSON `courses` column as it comes back from the
driver: either a parsed JSON array of course names or a raw string. -/
inductive CoursesVal where
  | arr (items : List String)
  | raw (s : String)
deriving DecidableEq

/-- A row of the `registrations` table (src/server.js lines 74-95). -/
structure Registration where
  id : Nat
  firstName : String
  lastName : String
  email : String
  phone : Option String
  password : String
  age : Option Int
  education : Option String
  experience : Option String
  courses : CoursesVal
  motivation : Option String
  profilePictureUrl : Option String
  is_active : Bool
  email_verified : Bool
  last_login : Option String
  created_at : Option String
  updated_at : Option String
deriving DecidableEq

/-- A row of the `admins` table (src/server.js lines 60-71). -/
structure Admin where
  id : Nat
  first_name : String
  last_name : String
  email : String
  password : String
  role : String
  is_active : Bool
  last_login : Option String
  created_at : Option String
  updated_at : Option String
deriving DecidableEq

/-- An uploaded file as multer presents it to the handler
(`req.file`): mimetype, byte size and the generated filename. -/
structure UploadedFile where
  mimetype : String
  size : Nat
  filename : String
deriving DecidableEq

/-- The allow-list of image mimetypes (src/server.js lines 295 and 359). -/
def allowedMimes : List String :=
  ["image/jpeg", "image/jpg", "image/png", "image/gif", "image/webp"]

/-- Result record of `FileUtils.validateFile`. -/
structure FileValidation where
  valid : Bool
  error : Option String
deriving DecidableEq

/-- `FileUtils.validateFile` (src/server.js lines 355-370): no file is
invalid; a file over 5MB is invalid with a size error; a file whose
mimetype is outside the allow-list is invalid with a type error. -/
def validateFile : Option UploadedFile → FileValidation
  | none => ⟨false, some "No file provided"⟩
  | some f =>
    if f.size > 5 * 1024 * 1024 then ⟨false, some "File size exceeds 5MB limit"⟩
    else if !(allowedMimes.contains f.mimetype) then ⟨false, some "Invalid file type"⟩
    else ⟨true, none⟩

/-- `FileUtils.generateFileUrl` (src/server.js lines 373-376). -/
def generateFileUrl (filename : Option String) : Option String :=
  match filename with
  | none => none
  | some s => if s == "" then none else some ("/uploads/" ++ s)

/-- `FileUtils.deleteFile` (src/server.js lines 379-399): a falsy path
resolves `true` at once; otherwise the outcome of the `fs.unlink` call
(`unlinkOk`) is reported by resolving `true` or `false`; the promise
never rejects. -/
def deleteFile (unlinkOk : Bool) (filePath : Option String) : Bool :=
  if jsTruthyStr filePath then unlinkOk else true

/-- The multipart body and file of a POST /api/register request. -/
structure RegisterRequest where
  firstName : Option String
  lastName : Option String
  email : Option String
  phone : Option String
  password : Option String
  age : Option Int
  education : Option String
  experience : Option String
  courses : Option CoursesVal
  motivation : Option String
  file : Option UploadedFile
deriving DecidableEq

/-- The required-field check of the registration handler
(src/server.js line 589): any of the five fields missing or empty. -/
def requiredMissing (r : RegisterRequest) : Bool :=
  isBlank r.firstName || isBlank r.lastName || isBlank r.email ||
    isBlank r.phone || isBlank r.password

/-- The `coursesToStore` normalisation of the registration handler
(src/server.js lines 609-616): arrays pass through, a truthy string is
wrapped in a singleton, anything else becomes `[]`. -/
def coursesToStore : Option CoursesVal → List String
  | none => []
  | some (.arr l) => l
  | some (.raw s) => if s == "" then [] else [s]

/-- The JSON body sent back by the registration handler, reduced to the
status code and the fields the claims are about. -/
structure RegisterResponse where
  status : Nat
  error : Option String
  message : Option String
  studentId : Option Nat
deriving DecidableEq

/-- Outcome of one run of the registration handler: the response, the
table contents after the run, and whether `FileUtils.deleteFile` was
invoked on the uploaded file. -/
structure RegisterOutcome where
  response : RegisterResponse
  db : List Registration
  fileDeleted : Bool
deriving DecidableEq

/-- The POST /api/register handler (src/server.js lines 576-680).
`hash` stands for `bcrypt.hash`, `newId` for the auto-increment id the
insert would allocate and `now` for `NOW()`.  Branches in source order:
missing required fields (400, uploaded file removed); invalid uploaded
file (400, file removed); duplicate email, surfaced by the UNIQUE
constraint as `ER_DUP_ENTRY` (409, file removed, no row inserted);
otherwise the row is inserted and the handler responds 200. -/
def registerHandler (hash : String → String) (db : List Registration)
    (newId : Nat) (now : String) (req : RegisterRequest) : RegisterOutcome :=
  if requiredMissing req then
    ⟨⟨400, some "Required fields missing", none, none⟩, db, req.file.isSome⟩
  else if req.file.isSome && !(validateFile req.file).valid then
    ⟨⟨400, (validateFile req.file).error, none, none⟩, db, true⟩
  else if db.any (fun r => r.email == req.email.getD "") then
    ⟨⟨409, some "Email already registered", none, none⟩, db, req.file.isSome⟩
  else
    ⟨⟨200, none, some "Registration successful", some newId⟩,
      db ++ [{ id := newId
               firstName := req.firstName.getD ""
               lastName := req.lastName.getD ""
               email := req.email.getD ""
               phone := req.phone
               password := hash (req.password.getD "")
               age := req.age
               education := req.education
               experience := req.experience
               courses := .arr (coursesToStore req.courses)
               motivation := req.motivation
               profilePictureUrl :=
                 match req.file with
                 | some f => generateFileUrl (some f.filename)
                 | none => none
               is_active := true
               email_verified := false
               last_login := none
               created_at := some now
               updated_at := some now }],
      false⟩

/-- A registration already persisted with the email that the C1
counterexample request will reuse. -/
def regDup : Registration :=
  { id := 1, firstName := "Ada", lastName := "Lovelace",
    email := "dup@example.com", phone := some "0800",
    password := "hash1", age := some 30, education := none,
    experience := none, courses := .arr [], motivation := none,
    profilePictureUrl := none, is_active := true, email_verified := false,
    last_login := none, created_at := some "t0", updated_at := some "t0" }

/-- A request whose email duplicates `regDup` but whose `phone` field is
missing, so the required-field check fires first. -/
def reqDupMissingPhone : RegisterRequest :=
  { firstName := some "Eve", lastName := some "Jones",
    email := some "dup@example.com", phone := none,
    password := some "pw", age := none, education := none,
    experience := none, courses := none, motivation := none, file := none }

/-- C1 counterexample: a POST /api/register whose email equals the email
of an already-persisted registration does NOT always get a 409 conflict.
With the duplicate email but a missing `phone`, the handler answers 400
"Required fields missing" before the insert ever runs, so the claimed
unconditional conflict response is false at this input. -/
theorem register_duplicate_email_conflict_cex :
    ([regDup].any (fun r => r.email == reqDupMissingPhone.email.getD "")) = true
    ∧ (registerHandler (fun s => s) [regDup] 2 "t1" reqDupMissingPhone).response.status = 400
    ∧ (registerHandler (fun s => s) [regDup] 2 "t1" reqDupMissingPhone).response.status ≠ 409 := by
  decide

/-- C1 (amended): for every registration request that passes the
required-field check and the uploaded-file validation and whose email
equals the email of an already-persisted registration, the response is
409 "Email already registered", no row is inserted, and if a file was
uploaded it is deleted. -/
theorem register_duplicate_email_conflict
    (hash : String → String) (db : List Registration) (newId : Nat)
    (now : String) (req : RegisterRequest)
    (hreq : requiredMissing req = false)
    (hfile : (req.file.isSome && !(validateFile req.file).valid) = false)
    (hdup : db.any (fun r => r.email == req.email.getD "") = true) :
    (registerHandler hash db newId now req).response.status = 409
    ∧ (registerHandler hash db newId now req).response.error = some "Email already registered"
    ∧ (registerHandler hash db newId now req).db = db
    ∧ (registerHandler hash db newId now req).fileDeleted = req.file.isSome := by
  unfold registerHandler
  simp [hreq, hfile, hdup]

/-- A well-formed request reusing `regDup`'s email, for the C1 witness. -/
def reqDupComplete : RegisterRequest :=
  { firstName := some "Eve", lastName := some "Jones",
    email := some "dup@example.com", phone := some "0700",
    password := some "pw", age := none, education := none,
    experience := none, courses := none, motivation := none, file := none }

/-- C1 witness: the amended theorem applied at a concrete duplicate-email
request that passes validation. -/
theorem register_duplicate_email_conflict_witness :
    (registerHandler (fun s => s) [regDup] 2 "t1" reqDupComplete).response.status = 409 :=
  (register_duplicate_email_conflict (fun s => s) [regDup] 2 "t1" reqDupComplete
    (by decide) (by decide) (by decide)).1

/-- C5: for every registration request in which at least one of
firstName, lastName, email, phone, password is missing or empty, the
response is 400 "Required fields missing", no row is inserted, and
`FileUtils.deleteFile` is invoked on the uploaded file exactly when one
was attached. -/
theorem register_missing_required_fields
    (hash : String → String) (db : List Registration) (newId : Nat)
    (now : String) (req : RegisterRequest)
    (h : requiredMissing req = true) :
    (registerHandler hash db newId now req).response.status = 400
    ∧ (registerHandler hash db newId now req).response.error = some "Required fields missing"
    ∧ (registerHandler hash db newId now req).db = db
    ∧ (registerHandler hash db newId now req).fileDeleted = req.file.isSome := by
  unfold registerHandler
  simp [h]

/-- A request with an attached file but an empty `firstName`, for the C5
witness and the C6 counterexample. -/
def reqMissingWithFile : RegisterRequest :=
  { firstName := some "", lastName := some "Jones",
    email := some "new@example.com", phone := some "0700",
    password := some "pw", age := none, education := none,
    experience := none, courses := none, motivation := none,
    file := some ⟨"image/png", 6 * 1024 * 1024, "p.png"⟩ }

/-- C5 witness: the theorem applied at a concrete request with an empty
firstName and an attached file. -/
theorem register_missing_required_fields_witness :
    (registerHandler (fun s => s) [] 1 "t1" reqMissingWithFile).response.error
      = some "Required fields missing"
    ∧ (registerHandler (fun s => s) [] 1 "t1" reqMissingWithFile).fileDeleted = true := by
  have h := register_missing_required_fields (fun s => s) [] 1 "t1" reqMissingWithFile (by decide)
  exact ⟨h.2.1, h.2.2.2⟩

/-- C6 counterexample: the attached file of `reqMissingWithFile` is
oversized, hence invalid, yet the response error is "Required fields
missing" rather than the file-validation error, because the
required-field check runs first.  So the claim that every request with a
violating file gets the validation error message is false as stated. -/
theorem file_validation_error_message_cex :
    (validateFile reqMissingWithFile.file).valid = false
    ∧ (registerHandler (fun s => s) [] 1 "t1" reqMissingWithFile).response.error
        = some "Required fields missing"
    ∧ (registerHandler (fun s => s) [] 1 "t1" reqMissingWithFile).response.error
        ≠ (validateFile reqMissingWithFile.file).error := by
  decide

/-- C6 (amended): `FileUtils.validateFile` accepts a file iff its
mimetype is allow-listed and its size is at most 5*1024*1024 bytes; and
for every registration request that passes the required-field check and
carries an invalid file, the file is deleted, the table is unchanged and
the response is 400 carrying the validation error. -/
theorem file_validation_spec :
    (∀ f : UploadedFile, (validateFile (some f)).valid = true ↔
        (allowedMimes.contains f.mimetype = true ∧ f.size ≤ 5 * 1024 * 1024))
    ∧ (∀ (hash : String → String) (db : List Registration) (newId : Nat)
        (now : String) (req : RegisterRequest),
        requiredMissing req = false → req.file.isSome = true →
        (validateFile req.file).valid = false →
        (registerHandler hash db newId now req).response.status = 400
        ∧ (registerHandler hash db newId now req).response.error = (validateFile req.file).error
        ∧ (registerHandler hash db newId now req).db = db
        ∧ (registerHandler hash db newId now req).fileDeleted = true) := by
  constructor
  · intro f
    simp only [validateFile]
    by_cases hsz : f.size > 5 * 1024 * 1024
    · rw [if_pos hsz]
      simp only [Bool.false_eq_true, false_iff, not_and, not_le]
      intro _
      omega
    · rw [if_neg hsz]
      by_cases hm : allowedMimes.contains f.mimetype = true
      · rw [if_neg (by rw [hm]; simp)]
        simp only [true_iff]
        exact ⟨hm, by omega⟩
      · rw [if_pos (by simpa using hm)]
        simp only [Bool.false_eq_true, false_iff, not_and]
        intro hc
        exact absurd hc hm
  · intro hash db newId now req hreq hfi hval
    unfold registerHandler
    simp [hreq, hfi, hval]

/-- A request that is complete except for its oversized file, for the C6
witness. -/
def reqBadFileOnly : RegisterRequest :=
  { firstName := some "Eve", lastName := some "Jones",
    email := some "new@example.com", phone := some "0700",
    password := some "pw", age := none, education := none,
    experience := none, courses := none, motivation := none,
    file := some ⟨"image/png", 6 * 1024 * 1024, "p.png"⟩ }

/-- C6 witness: the amended theorem applied at a concrete request whose
only defect is the oversized file. -/
theorem file_validation_spec_witness :
    (registerHandler (fun s => s) [] 1 "t1" reqBadFileOnly).response.error
      = some "File size exceeds 5MB limit"
    ∧ (registerHandler (fun s => s) [] 1 "t1" reqBadFileOnly).fileDeleted = true := by
  have h := file_validation_spec.2 (fun s => s) [] 1 "t1" reqBadFileOnly
    (by decide) (by decide) (by decide)
  exact ⟨by rw [h.2.1]; decide, h.2.2.2⟩

/-- The student record as the login endpoint returns it: every column of
`registrations` except `password`, which the handler strips with
`const { password: _, ...studentData } = student` (src/server.js 726). -/
structure PublicStudent where
  id : Nat
  firstName : String
  lastName : String
  email : String
  phone : Option String
  age : Option Int
  education : Option String
  experience : Option String
  courses : CoursesVal
  motivation : Option String
  profilePictureUrl : Option String
  is_active : Bool
  email_verified : Bool
  last_login : Option String
  created_at : Option String
  updated_at : Option String
deriving DecidableEq

/-- Strip the password field from a registration row. -/
def publicStudent (r : Registration) : PublicStudent :=
  { id := r.id, firstName := r.firstName, lastName := r.lastName,
    email := r.email, phone := r.phone, age := r.age,
    education := r.education, experience := r.experience,
    courses := r.courses, motivation := r.motivation,
    profilePictureUrl := r.profilePictureUrl, is_active := r.is_active,
    email_verified := r.email_verified, last_login := r.last_login,
    created_at := r.created_at, updated_at := r.updated_at }

/-- The admin record as the login endpoint returns it: every column of
`admins` except `password` (src/server.js 1234). -/
structure PublicAdmin where
  id : Nat
  first_name : String
  last_name : String
  email : String
  role : String
  is_active : Bool
  last_login : Option String
  created_at : Option String
  updated_at : Option String
deriving DecidableEq

/-- Strip the password field from an admin row. -/
def publicAdmin (a : Admin) : PublicAdmin :=
  { id := a.id, first_name := a.first_name, last_name := a.last_name,
    email := a.email, role := a.role, is_active := a.is_active,
    last_login := a.last_login, created_at := a.created_at,
    updated_at := a.updated_at }

/-- The JSON body and status of a POST /api/students/login response. -/
structure StudentLoginResponse where
  status : Nat
  success : Bool
  error : Option String
  message : Option String
  student : Option PublicStudent
  token : Option String
deriving DecidableEq

/-- The JSON body and status of a POST /api/admins/login response. -/
structure AdminLoginResponse where
  status : Nat
  success : Bool
  error : Option String
  message : Option String
  admin : Option PublicAdmin
  token : Option String
deriving DecidableEq

/-- The POST /api/students/login handler (src/server.js lines 683-742).
`verify pw hash` stands for `bcrypt.compare(pw, hash)` and `now` for
`NOW()`.  The SQL lookup `SELECT * FROM registrations WHERE email = ?
AND is_active = TRUE` followed by `result[0]` is the head of the
filtered table.  Returns the response and the table after the
`last_login` update. -/
def studentsLogin (verify : String → String → Bool) (now : String)
    (db : List Registration) (email password : Option String) :
    StudentLoginResponse × List Registration :=
  if isBlank email || isBlank password then
    (⟨400, false, some "Email and password are required", none, none, none⟩, db)
  else
    match (db.filter (fun r => r.email == email.getD "" && r.is_active)).head? with
    | none => (⟨401, false, some "Invalid email or password", none, none, none⟩, db)
    | some student =>
      if verify (password.getD "") student.password then
        (⟨200, true, none, some "Login successful",
            some (publicStudent student), some "student-auth-token"⟩,
          db.map (fun r => if r.id == student.id then { r with last_login := some now } else r))
      else
        (⟨401, false, some "Invalid email or password", none, none, none⟩, db)

/-- The POST /api/admins/login handler (src/server.js lines 1170-1250),
identical in structure to the student login but reading `admins` and
issuing the "admin-auth-token" placeholder. -/
def adminsLogin (verify : String → String → Bool) (now : String)
    (db : List Admin) (email password : Option String) :
    AdminLoginResponse × List Admin :=
  if isBlank email || isBlank password then
    (⟨400, false, some "Email and password are required", none, none, none⟩, db)
  else
    match (db.filter (fun a => a.email == email.getD "" && a.is_active)).head? with
    | none => (⟨401, false, some "Invalid email or password", none, none, none⟩, db)
    | some admin =>
      if verify (password.getD "") admin.password then
        (⟨200, true, none, some "Login successful",
            some (publicAdmin admin), some "admin-auth-token"⟩,
          db.map (fun a => if a.id == admin.id then { a with last_login := some now } else a))
      else
        (⟨401, false, some "Invalid email or password", none, none, none⟩, db)

/-- Login failure for a student credential pair: either no active row
carries the email, or the password does not verify against the stored
hash of the first matching row. -/
def studentAuthFails (verify : String → String → Bool)
    (db : List Registration) (email pw : String) : Bool :=
  match (db.filter (fun r => r.email == email && r.is_active)).head? with
  | none => true
  | some s => !(verify pw s.password)

/-- Login failure for an admin credential pair. -/
def adminAuthFails (verify : String → String → Bool)
    (db : List Admin) (email pw : String) : Bool :=
  match (db.filter (fun a => a.email == email && a.is_active)).head? with
  | none => true
  | some a => !(verify pw a.password)

/-- Any failed student login with both fields present answers exactly
401 with success false and "Invalid email or password". -/
theorem studentsLogin_fail_eq (verify : String → String → Bool) (now : String)
    (db : List Registration) (email pw : String)
    (he : email ≠ "") (hp : pw ≠ "")
    (h : studentAuthFails verify db email pw = true) :
    (studentsLogin verify now db (some email) (some pw)).1
      = ⟨401, false, some "Invalid email or password", none, none, none⟩ := by
  have he' : (email == "") = false := by simpa using he
  have hp' : (pw == "") = false := by simpa using hp
  unfold studentsLogin
  simp only [isBlank, he', hp', Bool.or_self, Bool.or_false, Option.getD_some]
  unfold studentAuthFails at h
  cases hh : (db.filter (fun r => r.email == email && r.is_active)).head? with
  | none => simp [hh]
  | some s =>
    rw [hh] at h
    simp only [Bool.not_eq_true', Bool.not_eq_eq_eq_not, Bool.not_true] at h
    simp [hh, h]

/-- Any failed admin login with both fields present answers exactly 401
with success false and "Invalid email or password". -/
theorem adminsLogin_fail_eq (verify : String → String → Bool) (now : String)
    (db : List Admin) (email pw : String)
    (he : email ≠ "") (hp : pw ≠ "")
    (h : adminAuthFails verify db email pw = true) :
    (adminsLogin verify now db (some email) (some pw)).1
      = ⟨401, false, some "Invalid email or password", none, none, none⟩ := by
  have he' : (email == "") = false := by simpa using he
  have hp' : (pw == "") = false := by simpa using hp
  unfold adminsLogin
  simp only [isBlank, he', hp', Bool.or_self, Bool.or_false, Option.getD_some]
  unfold adminAuthFails at h
  cases hh : (db.filter (fun a => a.email == email && a.is_active)).head? with
  | none => simp [hh]
  | some a =>
    rw [hh] at h
    simp only [Bool.not_eq_true', Bool.not_eq_eq_eq_not, Bool.not_true] at h
    simp [hh, h]

/-- C2: for every failed login (student or admin) with both email and
password present — whether the email matches no active principal or the
password does not verify — the response is status 401 with success false
and error "Invalid email or password"; in particular two runs differing
only in whether the email exists produce identical failure responses. -/
theorem login_failure_response_uniform (verify : String → String → Bool)
    (now : String) (sdb₁ sdb₂ : List Registration) (adb₁ adb₂ : List Admin)
    (email pw : String) (he : email ≠ "") (hp : pw ≠ "")
    (h1 : studentAuthFails verify sdb₁ email pw = true)
    (h2 : studentAuthFails verify sdb₂ email pw = true)
    (h3 : adminAuthFails verify adb₁ email pw = true)
    (h4 : adminAuthFails verify adb₂ email pw = true) :
    ((studentsLogin verify now sdb₁ (some email) (some pw)).1
        = ⟨401, false, some "Invalid email or password", none, none, none⟩
      ∧ (studentsLogin verify now sdb₁ (some email) (some pw)).1
        = (studentsLogin verify now sdb₂ (some email) (some pw)).1)
    ∧ ((adminsLogin verify now adb₁ (some email) (some pw)).1
        = ⟨401, false, some "Invalid email or password", none, none, none⟩
      ∧ (adminsLogin verify now adb₁ (some email) (some pw)).1
        = (adminsLogin verify now adb₂ (some email) (some pw)).1) := by
  have s1 := studentsLogin_fail_eq verify now sdb₁ email pw he hp h1
  have s2 := studentsLogin_fail_eq verify now sdb₂ email pw he hp h2
  have a1 := adminsLogin_fail_eq verify now adb₁ email pw he hp h3
  have a2 := adminsLogin_fail_eq verify now adb₂ email pw he hp h4
  exact ⟨⟨s1, s1.trans s2.symm⟩, ⟨a1, a1.trans a2.symm⟩⟩

/-- A persisted active student used by the login witnesses. -/
def stuW : Registration :=
  { id := 7, firstName := "Sam", lastName := "Doe",
    email := "s@example.com", phone := some "0700",
    password := "secret", age := none, education := none,
    experience := none, courses := .arr ["UI/UX Design"], motivation := none,
    profilePictureUrl := none, is_active := true, email_verified := false,
    last_login := none, created_at := some "t0", updated_at := some "t0" }

/-- A persisted active admin used by the login witnesses. -/
def admW : Admin :=
  { id := 3, first_name := "System", last_name := "Administrator",
    email := "a@example.com", password := "adminpw", role := "super_admin",
    is_active := true, last_login := none, created_at := some "t0",
    updated_at := some "t0" }

/-- C2 witness: with plain string comparison as the verifier, a login
against a table that does not contain the email produces the same 401
response as a login against a table where the email exists but the
password is wrong. -/
theorem login_failure_response_uniform_witness :
    (studentsLogin (fun p h => p == h) "t1" [] (some "s@example.com") (some "wrong")).1
      = ⟨401, false, some "Invalid email or password", none, none, none⟩
    ∧ (studentsLogin (fun p h => p == h) "t1" [] (some "s@example.com") (some "wrong")).1
      = (studentsLogin (fun p h => p == h) "t1" [stuW] (some "s@example.com") (some "wrong")).1 :=
  (login_failure_response_uniform (fun p h => p == h) "t1" [] [stuW] [] [admW]
    "s@example.com" "wrong" (by decide) (by decide)
    (by decide) (by decide) (by decide) (by decide)).1

/-- C9: for every successful login, the handler returns status 200 with
the fixed placeholder token ("student-auth-token" or "admin-auth-token"),
the principal's record with the password field removed (`publicStudent` /
`publicAdmin` carry every column except `password`), and the table is
rewritten so that the principal's `last_login` becomes the current
timestamp. -/
theorem login_success_behavior (verify : String → String → Bool) (now : String)
    (sdb : List Registration) (adb : List Admin)
    (semail spw aemail apw : String) (s : Registration) (a : Admin)
    (hse : semail ≠ "") (hsp : spw ≠ "")
    (hs : (sdb.filter (fun r => r.email == semail && r.is_active)).head? = some s)
    (hsv : verify spw s.password = true)
    (hae : aemail ≠ "") (hap : apw ≠ "")
    (ha : (adb.filter (fun x => x.email == aemail && x.is_active)).head? = some a)
    (hav : verify apw a.password = true) :
    studentsLogin verify now sdb (some semail) (some spw)
      = (⟨200, true, none, some "Login successful",
            some (publicStudent s), some "student-auth-token"⟩,
          sdb.map (fun r => if r.id == s.id then { r with last_login := some now } else r))
    ∧ adminsLogin verify now adb (some aemail) (some apw)
      = (⟨200, true, none, some "Login successful",
            some (publicAdmin a), some "admin-auth-token"⟩,
          adb.map (fun x => if x.id == a.id then { x with last_login := some now } else x)) := by
  have hse' : (semail == "") = false := by simpa using hse
  have hsp' : (spw == "") = false := by simpa using hsp
  have hae' : (aemail == "") = false := by simpa using hae
  have hap' : (apw == "") = false := by simpa using hap
  constructor
  · unfold studentsLogin
    simp only [isBlank, hse', hsp', Bool.or_self, Bool.or_false, Option.getD_some]
    simp [hs, hsv]
  · unfold adminsLogin
    simp only [isBlank, hae', hap', Bool.or_self, Bool.or_false, Option.getD_some]
    simp [ha, hav]

/-- C9 witness: the theorem applied at concrete student and admin tables
with plain string comparison as the verifier; the returned token is the
placeholder and the updated table carries the new `last_login`. -/
theorem login_success_behavior_witness :
    studentsLogin (fun p h => p == h) "t1" [stuW] (some "s@example.com") (some "secret")
      = (⟨200, true, none, some "Login successful",
            some (publicStudent stuW), some "student-auth-token"⟩,
          [{ stuW with last_login := some "t1" }]) := by
  have h := (login_success_behavior (fun p h => p == h) "t1" [stuW] [admW]
    "s@example.com" "secret" "a@example.com" "adminpw" stuW admW
    (by decide) (by decide) (by decide) (by decide)
    (by decide) (by decide) (by decide) (by decide)).1
  rw [h]
  decide

/-- Ceiling division on naturals, modelling `Math.ceil(total / limit)`
for a positive limit (src/server.js line 790). -/
def ceilDiv (a b : Nat) : Nat := (a + b - 1) / b

/-- SQL `LIKE '%pat%'` on a column value, as the search filter uses it
(src/server.js line 766): the pattern occurs as a contiguous substring. -/
def likeContains (hay pat : String) : Bool := decide (pat.data <:+: hay.data)

/-- The sort-field allow-list of GET /api/students (src/server.js 773). -/
def allowedSortFields : List String :=
  ["id", "firstName", "lastName", "email", "age", "created_at", "last_login"]

/-- Ascending comparison on two nullable strings, NULLs first, for the
ORDER BY model. -/
def optStrLeKey (a b : Option String) : Bool :=
  match a, b with
  | none, _ => true
  | some _, none => false
  | some x, some y => (compare x y).isLE

/-- Ascending comparison on two nullable integers, NULLs first. -/
def optIntLeKey (a b : Option Int) : Bool :=
  match a, b with
  | none, _ => true
  | some _, none => false
  | some x, some y => decide (x ≤ y)

/-- The key order belonging to one ORDER BY column of GET /api/students. -/
def regKeyLe (field : String) (a b : Registration) : Bool :=
  if field == "firstName" then (compare a.firstName b.firstName).isLE
  else if field == "lastName" then (compare a.lastName b.lastName).isLE
  else if field == "email" then (compare a.email b.email).isLE
  else if field == "age" then optIntLeKey a.age b.age
  else if field == "created_at" then optStrLeKey a.created_at b.created_at
  else if field == "last_login" then optStrLeKey a.last_login b.last_login
  else decide (a.id ≤ b.id)

/-- Insert a row into a list sorted by `le`. -/
def insertLe (le : Registration → Registration → Bool) (x : Registration) :
    List Registration → List Registration
  | [] => [x]
  | y :: ys => if le x y then x :: y :: ys else y :: insertLe le x ys

/-- Sort a list of rows by `le` (the ORDER BY of the data query). -/
def sortLe (le : Registration → Registration → Bool) :
    List Registration → List Registration
  | [] => []
  | x :: xs => insertLe le x (sortLe le xs)

/-- ASCII uppercasing, modelling `order.toUpperCase()` on the plain
ASCII order tokens the endpoint compares against. -/
def jsToUpperCase (s : String) : String :=
  String.mk (s.data.map (fun c =>
    if c.toNat ≥ 97 && c.toNat ≤ 122 then Char.ofNat (c.toNat - 32) else c))

/-- The ORDER BY clause of GET /api/students (src/server.js 772-777):
a sort field outside the allow-list falls back to `id`, and any order
other than DESC (case-insensitively) means ASC. -/
def sortRows (sort ord : String) (l : List Registration) : List Registration :=
  let sortField := if allowedSortFields.contains sort then sort else "id"
  if jsToUpperCase ord == "DESC" then sortLe (fun a b => regKeyLe sortField b a) l
  else sortLe (regKeyLe sortField) l

/-- The JSON body of a GET /api/students response. -/
structure ListResponse where
  students : List Registration
  total : Nat
  totalPages : Nat
  currentPage : Nat
  limit : Nat
deriving DecidableEq

/-- The GET /api/students handler (src/server.js lines 749-810): both
the count query and the data query apply the same search filter (and no
`is_active` filter); `offset = (page - 1) * limit`; the data query sorts
and then applies `LIMIT limit OFFSET offset`; `totalPages` is
`Math.ceil(total / limit)` and `currentPage` echoes the page number. -/
def studentsIndex (db : List Registration) (page limit : Nat)
    (search sort ord : String) : ListResponse :=
  let offset := (page - 1) * limit
  let filtered :=
    if search == "" then db
    else db.filter (fun r =>
      likeContains r.firstName search || likeContains r.lastName search ||
        likeContains r.email search)
  let total := filtered.length
  { students := ((sortRows sort ord filtered).drop offset).take limit
    total := total
    totalPages := ceilDiv total limit
    currentPage := page
    limit := limit }

/-- C4: every GET /api/students with limit 10 and page 2 returns at most
10 rows, a currentPage of 2, and a totalPages equal to the ceiling of
total over 10, `total` being the count-query result; the last two
conjuncts characterise `ceilDiv total 10` as that ceiling. -/
theorem students_listing_pagination (db : List Registration)
    (search sort ord : String) :
    (studentsIndex db 2 10 search sort ord).students.length ≤ 10
    ∧ (studentsIndex db 2 10 search sort ord).currentPage = 2
    ∧ (studentsIndex db 2 10 search sort ord).totalPages
        = ceilDiv (studentsIndex db 2 10 search sort ord).total 10
    ∧ (studentsIndex db 2 10 search sort ord).total
        ≤ 10 * (studentsIndex db 2 10 search sort ord).totalPages
    ∧ 10 * (studentsIndex db 2 10 search sort ord).totalPages
        ≤ (studentsIndex db 2 10 search sort ord).total + 9 := by
  refine ⟨?_, rfl, rfl, ?_, ?_⟩
  · simp only [studentsIndex, List.length_take]
    exact min_le_left _ _
  · simp only [studentsIndex, ceilDiv]
    omega
  · simp only [studentsIndex, ceilDiv]
    omega

/-- A request as the authentication middleware sees it: whatever
credential material it carries, if any. -/
structure ApiRequest where
  authorization : Option String
deriving DecidableEq

/-- What a middleware does with a request. -/
inductive MiddlewareResult where
  | next
  | reject (status : Nat) (error : String)
deriving DecidableEq

/-- The `authenticateAdmin` middleware (src/server.js lines 342-344 and
src/unnamed/part_000 lines 547-550): both variants unconditionally call
`next()`, inspecting nothing of the request. -/
def authenticateAdmin (_req : ApiRequest) : MiddlewareResult := .next

/-- GET /api/students behind the middleware chain: the handler runs and
returns the listing unless the middleware rejects the request. -/
def getStudentsEndpoint (req : ApiRequest) (db : List Registration)
    (page limit : Nat) (search sort ord : String) : Option ListResponse :=
  match authenticateAdmin req with
  | .reject _ _ => none
  | .next => some (studentsIndex db page limit search sort ord)

/-- A request carrying no credentials at all. -/
def noCredentialsReq : ApiRequest := ⟨none⟩

/-- C3 is false of the code: `authenticateAdmin` admits every request,
so a GET /api/students request that carries no admin credentials still
reaches the handler and receives the student records (here the full
single-row table, `regDup`, password column included). -/
theorem students_listing_not_admin_gated :
    authenticateAdmin noCredentialsReq = MiddlewareResult.next
    ∧ getStudentsEndpoint noCredentialsReq [regDup] 1 10 "" "id" "ASC"
        = some (studentsIndex [regDup] 1 10 "" "id" "ASC")
    ∧ (studentsIndex [regDup] 1 10 "" "id" "ASC").students = [regDup] := by
  refine ⟨rfl, rfl, ?_⟩
  decide

/-- The JSON body and status of a DELETE /api/students/:id response. -/
structure DeleteResponse where
  status : Nat
  error : Option String
  message : Option String
deriving DecidableEq

/-- Outcome of one run of the delete handler: the response, the table
after the run, whether `FileUtils.deleteFile` was invoked on the stored
profile picture, and what it resolved to if so. -/
structure DeleteOutcome where
  response : DeleteResponse
  db : List Registration
  fileDeletionAttempted : Bool
  fileDeleteResult : Option Bool
deriving DecidableEq

/-- The DELETE /api/students/:id handler (src/server.js lines
1027-1058): look the row up; 404 when absent; otherwise attempt
`FileUtils.deleteFile` on a truthy `profilePictureUrl` (its resolution
value, driven here by `unlinkOk`, is ignored), delete the row, and
answer 200 "Student deleted successfully". -/
def deleteStudent (db : List Registration) (unlinkOk : Bool) (sid : Nat) :
    DeleteOutcome :=
  match (db.filter (fun x => x.id == sid)).head? with
  | none => ⟨⟨404, some "Student not found", none⟩, db, false, none⟩
  | some r =>
    let attempted := jsTruthyStr r.profilePictureUrl
    ⟨⟨200, none, some "Student deleted successfully"⟩,
      db.filter (fun x => !(x.id == sid)),
      attempted,
      if attempted then some (deleteFile unlinkOk r.profilePictureUrl) else none⟩

/-- C7: for every DELETE /api/students/:id whose id exists, the row is
removed and the handler answers 200 "Student deleted successfully"
regardless of whether the file removal succeeds (`unlinkOk` is
universally quantified, and `deleteFile` resolves `false` rather than
rejecting); file removal is attempted exactly when the stored
`profilePictureUrl` is truthy, in particular whenever it is a non-null,
non-empty string. -/
theorem delete_student_removes_row (db : List Registration) (unlinkOk : Bool)
    (sid : Nat) (r : Registration)
    (h : (db.filter (fun x => x.id == sid)).head? = some r) :
    (deleteStudent db unlinkOk sid).db = db.filter (fun x => !(x.id == sid))
    ∧ (deleteStudent db unlinkOk sid).response.status = 200
    ∧ (deleteStudent db unlinkOk sid).response.message
        = some "Student deleted successfully"
    ∧ (deleteStudent db unlinkOk sid).fileDeletionAttempted
        = jsTruthyStr r.profilePictureUrl
    ∧ (∀ u : String, r.profilePictureUrl = some u → u ≠ "" →
        (deleteStudent db unlinkOk sid).fileDeletionAttempted = true) := by
  unfold deleteStudent
  rw [h]
  refine ⟨rfl, rfl, rfl, rfl, ?_⟩
  intro u hu hne
  simp [jsTruthyStr, hu, hne]

/-- A persisted student whose profile picture is present, for the C7
witness. -/
def regDel : Registration :=
  { id := 5, firstName := "Kim", lastName := "Lee",
    email := "k@example.com", phone := some "0711",
    password := "hash5", age := some 22, education := none,
    experience := none, courses := .arr [], motivation := none,
    profilePictureUrl := some "/uploads/profile-k-1.png",
    is_active := true, email_verified := false,
    last_login := none, created_at := some "t0", updated_at := some "t0" }

/-- C7 witness: deleting `regDel` while the filesystem removal fails
(`unlinkOk = false`) still removes the row and answers 200. -/
theorem delete_student_removes_row_witness :
    (deleteStudent [regDel] false 5).response.status = 200
    ∧ (deleteStudent [regDel] false 5).db = [] := by
  have h := delete_student_removes_row [regDel] false 5 regDel (by decide)
  refine ⟨h.2.1, ?_⟩
  rw [h.1]
  decide

/-- Wrap a cell value in double quotes, as the template literals
`"${...}"` of the CSV generator do (src/server.js 856-864). -/
def quote (s : String) : String := "\"" ++ s ++ "\""

/-- `(student.motivation || '').replace(/"/g, '""')` (src/server.js
864): every double-quote character is doubled. -/
def escapeQuotes (s : String) : String :=
  String.mk (s.data.foldr
    (fun c acc => if c == '"' then '"' :: '"' :: acc else c :: acc) [])

/-- `student.age || ''` (src/server.js 860): a missing age and the falsy
age 0 both render empty. -/
def ageCell : Option Int → String
  | none => ""
  | some n => if n == 0 then "" else toString n

/-- The courses cell source value (src/server.js 863): an array is
joined with ", ", anything else is interpolated as the raw string. -/
def coursesCellVal : CoursesVal → String
  | .arr l => String.intercalate ", " l
  | .raw s => s

/-- The fixed CSV header list (src/server.js 853). -/
def csvHeaders : List String :=
  ["ID", "First Name", "Last Name", "Email", "Phone", "Age", "Education",
   "Experience", "Courses", "Motivation", "Status", "Last Login",
   "Registration Date"]

/-- One data row of the CSV export (src/server.js 854-868), as the list
of cell strings before they are joined with commas.  `fmtDT` and `fmtD`
stand for `new Date(x).toLocaleString()` and `.toLocaleDateString()`.
Quoted cells are exactly the template-literal ones: name, email, phone,
education, experience, courses and motivation; id, age, status and the
two date cells are interpolated bare. -/
def csvRow (fmtDT fmtD : String → String) (r : Registration) : List String :=
  [toString r.id,
   quote r.firstName,
   quote r.lastName,
   quote r.email,
   quote (r.phone.getD ""),
   ageCell r.age,
   quote (r.education.getD ""),
   quote (r.experience.getD ""),
   quote (coursesCellVal r.courses),
   quote (escapeQuotes (r.motivation.getD "")),
   (if r.is_active then "Active" else "Inactive"),
   (if jsTruthyStr r.last_login then fmtDT (r.last_login.getD "") else "Never"),
   (if jsTruthyStr r.created_at then fmtD (r.created_at.getD "") else "")]

/-- `row.join(',')` for one data row. -/
def csvRowLine (fmtDT fmtD : String → String) (r : Registration) : String :=
  String.intercalate "," (csvRow fmtDT fmtD r)

/-- `headers.join(',')`. -/
def csvHeaderLine : String := String.intercalate "," csvHeaders

/-- `lines.join('\n')` (src/server.js 870-872). -/
def joinLines : List String → String
  | [] => ""
  | [l] => l
  | l :: ls => l ++ "\n" ++ joinLines ls

/-- The full CSV body of GET /api/students/export/csv: the header line
followed by one line per row of the result set, joined with newlines. -/
def csvContent (fmtDT fmtD : String → String) (rows : List Registration) : String :=
  joinLines (csvHeaderLine :: rows.map (csvRowLine fmtDT fmtD))

/-- Split a character list at every newline; the result always has one
piece more than the number of newlines. -/
def splitNl : List Char → List (List Char)
  | [] => [[]]
  | c :: cs =>
    match splitNl cs with
    | [] => [[]]
    | l :: ls => if c = '\n' then [] :: l :: ls else (c :: l) :: ls

/-- The CSV line parser: split the byte stream at newlines. -/
def splitLines (s : String) : List String :=
  (splitNl s.data).map (fun cs => String.mk cs)

theorem splitNl_ne_nil (cs : List Char) : splitNl cs ≠ [] := by
  induction cs with
  | nil => simp [splitNl]
  | cons c cs ih =>
    rw [splitNl]
    cases hh : splitNl cs with
    | nil => exact absurd hh ih
    | cons l ls => by_cases hc : c = '\n' <;> simp [hc]

theorem splitNl_no_nl (cs : List Char) (h : '\n' ∉ cs) : splitNl cs = [cs] := by
  induction cs with
  | nil => rfl
  | cons c cs ih =>
    simp only [List.mem_cons, not_or] at h
    rw [splitNl, ih h.2]
    simp only []
    rw [if_neg (fun e => h.1 e.symm)]

theorem splitNl_append_nl (xs ys : List Char) (h : '\n' ∉ xs) :
    splitNl (xs ++ '\n' :: ys) = xs :: splitNl ys := by
  induction xs with
  | nil =>
    rw [List.nil_append, splitNl]
    cases hh : splitNl ys with
    | nil => exact absurd hh (splitNl_ne_nil ys)
    | cons l ls => simp
  | cons c cs ih =>
    simp only [List.mem_cons, not_or] at h
    rw [List.cons_append, splitNl, ih h.2]
    simp only []
    rw [if_neg (fun e => h.1 e.symm)]

/-- Character-level `join('\n')`. -/
def joinNlData : List (List Char) → List Char
  | [] => []
  | [l] => l
  | l :: ls => l ++ '\n' :: joinNlData ls

theorem data_append (a b : String) : (a ++ b).data = a.data ++ b.data := by
  cases a
  cases b
  rfl

theorem mk_data (s : String) : String.mk s.data = s := by
  cases s
  rfl

theorem data_joinLines : ∀ ls : List String,
    (joinLines ls).data = joinNlData (ls.map String.data)
  | [] => rfl
  | [l] => rfl
  | l :: m :: ms => by
    show ((l ++ "\n") ++ joinLines (m :: ms)).data
        = joinNlData (l.data :: (m :: ms).map String.data)
    rw [data_append, data_append, data_joinLines (m :: ms)]
    show (l.data ++ ['\n']) ++ joinNlData ((m :: ms).map String.data)
        = l.data ++ '\n' :: joinNlData ((m.data :: ms.map String.data))
    simp

theorem splitNl_joinNlData : ∀ ls : List (List Char), ls ≠ [] →
    (∀ l ∈ ls, '\n' ∉ l) → splitNl (joinNlData ls) = ls
  | [], h, _ => absurd rfl h
  | [l], _, h => by
    simpa [joinNlData] using splitNl_no_nl l (h l (by simp))
  | l :: m :: ms, _, h => by
    show splitNl (l ++ '\n' :: joinNlData (m :: ms)) = l :: m :: ms
    rw [splitNl_append_nl _ _ (h l (by simp)),
      splitNl_joinNlData (m :: ms) (by simp) (fun x hx => h x (List.mem_cons_of_mem l hx))]

/-- Splitting the joined lines on newlines recovers the lines, provided
none of them contains a newline itself. -/
theorem splitLines_joinLines (ls : List String) (h0 : ls ≠ [])
    (h : ∀ l ∈ ls, '\n' ∉ l.data) : splitLines (joinLines ls) = ls := by
  unfold splitLines
  rw [data_joinLines,
    splitNl_joinNlData (ls.map String.data) (by simpa using h0)
      (by
        intro l hl
        rcases List.mem_map.mp hl with ⟨s, hs, rfl⟩
        exact h s hs)]
  simp [List.map_map, Function.comp_def, mk_data]

/-- A student row whose CSV rendering exhibits unquoted cells, for the
C8 counterexample. -/
def regCsv : Registration :=
  { id := 1, firstName := "Ada", lastName := "Lovelace",
    email := "ada@example.com", phone := some "0800",
    password := "hash1", age := some 30, education := some "BSc",
    experience := some "2y", courses := .arr ["UI/UX Design", "Data Science"],
    motivation := some "learn", profilePictureUrl := none,
    is_active := true, email_verified := false,
    last_login := none, created_at := some "2024-01-01",
    updated_at := some "2024-01-01" }

/-- A CSV cell that both starts and ends with a double quote. -/
def isQuotedCell (c : String) : Bool :=
  (c.data.head? == some '"') && (c.data.getLast? == some '"')

/-- C8 counterexample: not every field value of the generated CSV is
quoted.  In the row rendered for `regCsv` the ID cell is the bare string
"1", so the claim's "every field value is quoted" fails at this result
set (the age, status and date cells are bare too). -/
theorem csv_export_all_quoted_cex :
    ((csvRow (fun s => s) (fun s => s) regCsv).all isQuotedCell) = false
    ∧ (csvRow (fun s => s) (fun s => s) regCsv).head? = some "1"
    ∧ isQuotedCell "1" = false := by
  decide

/-- C8 (amended): for every result set whose rendered lines contain no
newline character, the CSV produced by GET /api/students/export/csv
splits back into one header line plus exactly one line per result row;
the textual cells (first/last name, email, phone, education, experience,
courses, motivation) are the quoted ones, while the ID cell is bare; and
a list-valued courses field is rendered as the single string joining the
course names with ", ". -/
theorem csv_export_shape (fmtDT fmtD : String → String)
    (rows : List Registration)
    (H : ∀ r ∈ rows, '\n' ∉ (csvRowLine fmtDT fmtD r).data) :
    (splitLines (csvContent fmtDT fmtD rows)).length = rows.length + 1
    ∧ (∀ r ∈ rows,
        (csvRow fmtDT fmtD r).head? = some (toString r.id)
        ∧ (csvRow fmtDT fmtD r)[1]? = some (quote r.firstName)
        ∧ (csvRow fmtDT fmtD r)[2]? = some (quote r.lastName)
        ∧ (csvRow fmtDT fmtD r)[3]? = some (quote r.email)
        ∧ (csvRow fmtDT fmtD r)[4]? = some (quote (r.phone.getD ""))
        ∧ (csvRow fmtDT fmtD r)[6]? = some (quote (r.education.getD ""))
        ∧ (csvRow fmtDT fmtD r)[7]? = some (quote (r.experience.getD ""))
        ∧ (csvRow fmtDT fmtD r)[9]? = some (quote (escapeQuotes (r.motivation.getD ""))))
    ∧ (∀ r ∈ rows, ∀ l : List String, r.courses = CoursesVal.arr l →
        (csvRow fmtDT fmtD r)[8]? = some (quote (String.intercalate ", " l))) := by
  refine ⟨?_, ?_, ?_⟩
  · have hnl : ∀ l ∈ csvHeaderLine :: rows.map (csvRowLine fmtDT fmtD),
        '\n' ∉ l.data := by
      intro l hl
      rcases List.mem_cons.mp hl with hl | hl
      · subst hl
        decide
      · rcases List.mem_map.mp hl with ⟨r, hr, rfl⟩
        exact H r hr
    rw [csvContent, splitLines_joinLines _ (by simp) hnl]
    simp
  · intro r _
    exact ⟨rfl, rfl, rfl, rfl, rfl, rfl, rfl, rfl⟩
  · intro r _ l hl
    simp [csvRow, coursesCellVal, hl]

/-- C8 witness: the amended theorem applied to the singleton result set
`[regCsv]` with the identity date formatters: the CSV splits into two
lines and the courses cell is the quoted ", "-join of the two courses. -/
theorem csv_export_shape_witness :
    (splitLines (csvContent (fun s => s) (fun s => s) [regCsv])).length = 2
    ∧ (csvRow (fun s => s) (fun s => s) regCsv)[8]?
        = some (quote (String.intercalate ", " ["UI/UX Design", "Data Science"])) := by
  have h := csv_export_shape (fun s => s) (fun s => s) [regCsv]
    (by
      intro r hr
      simp only [List.mem_singleton] at hr
      subst hr
      decide)
  exact ⟨h.1, h.2.2 regCsv (by simp) ["UI/UX Design", "Data Science"] rfl⟩

/-- A JSON value, as `JSON.parse` can return one inside `parseCourses`. -/
inductive Json where
  | null
  | bool (b : Bool)
  | num (n : Int)
  | str (s : String)
  | arr (elems : List Json)
  | obj (fields : List (String × Json))

/-- The JavaScript value handed to `parseCourses`, split by the checks
the function makes: a falsy value (`undefined`, `null`, `''`, `0`,
`false`), an array, a string, or any other truthy value. -/
inductive CoursesData where
  | jsFalsy
  | array (elems : List Json)
  | str (s : String)
  | truthyOther

/-- JS `s.slice(1, -1)`: drop the first and last character. -/
def sliceInner (s : String) : String :=
  String.mk ((s.data.drop 1).dropLast)

/-- The helper `parseCourses` (src/server.js lines 430-462, duplicated
in src/unnamed/part_000 lines 605-637).  `jp` models `JSON.parse`, with
`none` standing for a parse error being thrown (the function catches
it); every other library call is modelled by its core counterpart.
Falsy input yields `[]`; arrays are returned as they are; a non-empty
string is trimmed, stripped of one layer of surrounding double quotes,
then JSON-parsed (an array result passes through, any other parsed
value is wrapped in a singleton); if parsing throws, a comma-separated
string splits into its trimmed non-empty pieces, any other non-empty
string becomes a singleton; every remaining case yields `[]`. -/
def parseCourses (jp : String → Option Json) : CoursesData → List Json
  | .jsFalsy => []
  | .array elems => elems
  | .str s =>
    if s == "" then []
    else
      let t := s.trim
      let clean :=
        if t.startsWith "\"" && t.endsWith "\"" then sliceInner t else t
      match jp clean with
      | some (Json.arr l) => l
      | some v => [v]
      | none =>
        if clean.data.contains ',' then
          (((clean.splitOn ",").map String.trim).filter
            (fun piece => !(piece == ""))).map Json.str
        else if !(clean == "") then [Json.str clean]
        else []
  | .truthyOther => []

/-- C10: `parseCourses` is total over every input shape and always
returns a list (it is a total Lean function into `List Json`; every
JSON.parse exception is absorbed by the `none` case of `jp`); it returns
array inputs unchanged; and it is idempotent — feeding its own (array)
output back in returns the same list; falsy and non-array non-string
inputs give `[]`. -/
theorem parseCourses_total_idempotent (jp : String → Option Json) :
    (∀ elems : List Json, parseCourses jp (CoursesData.array elems) = elems)
    ∧ (∀ input : CoursesData,
        parseCourses jp (CoursesData.array (parseCourses jp input))
          = parseCourses jp input)
    ∧ parseCourses jp CoursesData.jsFalsy = []
    ∧ parseCourses jp CoursesData.truthyOther = [] :=
  ⟨fun _ => rfl, fun _ => rfl, rfl, rfl⟩

end Bucohub
